import Mathlib

/-
  Verification development for the social-network-manager repository.

  The definitions below are a shallow embedding of the Python sources:
    src/services/api_client.py   (RateLimiter, APIResponse, platform clients, factory)
    src/models/social_account.py (SocialMediaAccount)
    src/models/content_post.py   (ContentPost, PostDistribution)
    src/routes/content.py        (publish_post, retry_distribution, delete_post,
                                  get_post_distributions)

  Conventions of the embedding:
  - Wall-clock instants (datetime values) are integers counting seconds; the
    datetime.utcnow () and datetime.now () reads become an explicit `now`
    argument threaded through each operation.
  - JSON payloads become the inductive type JsonVal; a Python value that is
    not a dict is any constructor other than JsonVal.obj.
  - A Python call that can raise becomes a PyResult value: PyResult.exn
    carries the exception class name.
  - Database state (the three SQLAlchemy tables touched by the routes in
    scope) becomes the structure Db; each route is a pure function from the
    incoming Db to the outgoing Db plus its HTTP-level result, with .error
    carrying the (status, message) pair of an error response and rollback
    leaving the Db unchanged.
-/

namespace SNM

/-- JSON-like values: the payloads carried by HTTP bodies and by the data
field of an APIResponse. Raw (non-JSON) body text is embedded as JsonVal.str. -/
inductive JsonVal where
  | null
  | bool (b : Bool)
  | num (n : Int)
  | str (s : String)
  | arr (elems : List JsonVal)
  | obj (fields : List (String × JsonVal))

/-- Outcome of a Python expression that may raise: ok carries the value, exn
carries the exception class name. -/
inductive PyResult (α : Type) where
  | ok (val : α)
  | exn (exnName : String)

/-- Python truthiness of an optional JSON value, as used by
`if not self.page_id`: None, False, 0, empty string, empty list and empty
dict are falsy. -/
def pyTruthy : Option JsonVal → Bool
  | none => false
  | some .null => false
  | some (.bool b) => b
  | some (.num n) => n != 0
  | some (.str s) => s != ""
  | some (.arr elems) => !elems.isEmpty
  | some (.obj fields) => !fields.isEmpty

/-- Python dict .get on a JSON value: only dict objects support .get; on any
other value Python raises AttributeError. -/
def pyDictGet (v : JsonVal) (key : String) : PyResult (Option JsonVal) :=
  match v with
  | .obj fields => .ok (fields.lookup key)
  | _ => .exn "AttributeError"

/-! ## APIResponse (src/services/api_client.py, class APIResponse)

The timestamp field (set to utcnow at construction) carries no information
used by any route or client and is not modelled. -/

/-- Standardized API response wrapper. data is the parsed JSON body if
parseable, else the raw text; platform_response defaults to the empty dict. -/
structure APIResponse where
  success : Bool
  data : Option JsonVal
  error : Option String
  status_code : Option Nat
  platform_response : JsonVal

/-! ## The HTTP funnel (BasePlatformClient._make_request)

An outbound HTTP attempt either fails at the transport level (the
requests.exceptions.RequestException branch: no response was received) or
produces a response with a status code, a body text, the result of trying to
parse that body as JSON (json_body = some j exactly when response.json ()
succeeds with j; json_error_msg is what str of the raised JSONDecodeError
would say otherwise), and whether the content-type header starts with
application/json. The rate limiter call at the top of _make_request mutates
only limiter state and never alters the returned APIResponse; it is modelled
separately below. -/

/-- A received HTTP response as _make_request observes it. json_body is
some j exactly when response.json () succeeds with j; when it is none,
json_error_msg carries the message of the JSONDecodeError the parser raises
instead (read only on paths that call response.json () on such a body). -/
structure HttpResp where
  status_code : Nat
  text : String
  json_body : Option JsonVal
  json_error_msg : String
  content_type_json : Bool

/-- What the outbound request attempt produced. -/
inductive HttpOutcome where
  | transport_error (msg : String)
  | response (r : HttpResp)

/-- BasePlatformClient._make_request, lines 85-122 of api_client.py: classify
the outcome of one HTTP call into an APIResponse. In the status >= 400 branch
the source evaluates response.json () inside the return expression whenever
the content-type starts with application/json; on an unparseable body that
call raises requests.exceptions.JSONDecodeError, which is a RequestException
since requests 2.27 (this embedding assumes that), so the outer handler at
line 117 catches it and answers the transport-style Response with no status
code; under older requests the exception would instead escape the funnel. -/
def make_request (o : HttpOutcome) : APIResponse :=
  match o with
  | .transport_error msg =>
    { success := false
      data := none
      error := some ("Request failed: " ++ msg)
      status_code := none
      platform_response := .obj [] }
  | .response r =>
    if 400 ≤ r.status_code then
      if r.content_type_json && r.json_body.isNone then
        { success := false
          data := none
          error := some ("Request failed: " ++ r.json_error_msg)
          status_code := none
          platform_response := .obj [] }
      else
        { success := false
          data := none
          error := some ("HTTP " ++ toString r.status_code ++ ": " ++ r.text)
          status_code := some r.status_code
          platform_response := if r.content_type_json then r.json_body.getD (.obj []) else .obj [] }
    else
      let data := r.json_body.getD (.str r.text)
      { success := true
        data := some data
        error := none
        status_code := some r.status_code
        platform_response := match data with | .obj fields => .obj fields | _ => .obj [] }

/-! ## LinkedInClient (api_client.py, lines 218-275)

post_content first calls get_user_info; on a failed sub-call it returns that
APIResponse unchanged without issuing the post request. On a successful
sub-call it evaluates user_info.data.get on the id key — which raises
AttributeError when data is not a dict — and then issues the post request.
The author URN string and the JSON body sent to the ugcPosts endpoint are
built from that id but never influence the classified Response, so only the
dict access itself is modelled. The environment fixes the outcome each
endpoint would produce; the second component of post_content counts requests
issued to the post endpoint. -/

/-- Remote outcomes for the two LinkedIn endpoints a post_content call can touch. -/
structure LinkedInEnv where
  user_info_outcome : HttpOutcome
  post_outcome : HttpOutcome

/-- LinkedInClient.get_user_info: one funneled GET. -/
def linkedin_get_user_info (env : LinkedInEnv) : APIResponse :=
  make_request env.user_info_outcome

/-- LinkedInClient.post_content, lines 237-266: returns the Python outcome
(normal APIResponse or escaped exception) paired with how many requests were
issued to the post endpoint. -/
def linkedin_post_content (env : LinkedInEnv) : PyResult APIResponse × Nat :=
  let user_info := linkedin_get_user_info env
  if !user_info.success then
    (.ok user_info, 0)
  else
    match pyDictGet (user_info.data.getD .null) "id" with
    | .exn e => (.exn e, 0)
    | .ok _idVal => (.ok (make_request env.post_outcome), 1)

/-- FacebookClient fields read during construction and posting. -/
structure FacebookClientModel where
  access_token : Option JsonVal
  page_id : Option JsonVal

/-- FacebookClient.post_content, lines 140-160: fails fast with a
configuration error when page_id is falsy, otherwise one funneled POST. -/
def facebook_post_content (c : FacebookClientModel) (outcome : HttpOutcome) : APIResponse :=
  if !(pyTruthy c.page_id) then
    { success := false
      data := none
      error := some "Page ID required for posting"
      status_code := none
      platform_response := .obj [] }
  else make_request outcome

/-- TwitterClient.post_content, lines 193-207: one funneled POST. -/
def twitter_post_content (outcome : HttpOutcome) : APIResponse :=
  make_request outcome

/-! ## APIClientFactory (api_client.py, lines 277-305) -/

/-- The static platform-name registry, APIClientFactory.CLIENTS. -/
def CLIENTS : List String := ["facebook", "twitter", "linkedin"]

/-- Python str.lower as used by platform.lower (): lowercase every character.
This is String.toLower spelled through the character list so that it reduces
inside the kernel. -/
def pyLower (s : String) : String := String.mk (s.data.map Char.toLower)

/-- A constructed client: the platform name, the credential dict, and the
per-platform rate limit passed to the base constructor. -/
structure ClientModel where
  platform : String
  credentials : List (String × JsonVal)
  rate_limit : Nat

/-- Construction of a concrete client class. Every constructor in scope reads
credentials with .get, so construction raises AttributeError exactly when the
credential value is not a dict; the rate limits are the per-class constants
(Facebook 200, Twitter 300, LinkedIn 500). -/
def construct_client (platform : String) (credentials : JsonVal) : PyResult ClientModel :=
  match credentials with
  | .obj fields =>
    .ok { platform := platform
          credentials := fields
          rate_limit := if platform == "facebook" then 200
                        else if platform == "twitter" then 300 else 500 }
  | _ => .exn "AttributeError"

/-- APIClientFactory.create_client, lines 287-300: lowercase lookup in the
registry; a miss yields none, and any exception during construction is caught
and yields none. -/
def create_client (platform : String) (credentials : JsonVal) : Option ClientModel :=
  if !(CLIENTS.contains (pyLower platform)) then none
  else
    match construct_client (pyLower platform) credentials with
    | .ok c => some c
    | .exn _ => none

/-! ## RateLimiter (api_client.py, lines 13-34)

Timestamps are integer seconds. wait_if_needed is entered at time `now`; it
prunes the recorded timestamps to those strictly younger than 60 seconds,
and when the pruned window is full it sleeps 60 - (now - oldest) seconds (if
positive). The function returns the new limiter state and the instant at
which it returns to its caller — the instant the guarded call starts. The
source appends `now`, the value read before the sleep, to self.calls; the
embedding reproduces that faithfully. -/

/-- Per-client sliding-window state: the configured limit and the recorded
call timestamps. -/
structure RateLimiter where
  calls_per_minute : Nat
  calls : List Int
deriving Repr, DecidableEq

/-- Python min over the recorded timestamps. Python raises ValueError on an
empty list; that branch is reachable only with calls_per_minute = 0 and the
default 0 stands in for it. -/
def listMin : List Int → Int
  | [] => 0
  | t :: ts => ts.foldl min t

/-- RateLimiter.wait_if_needed, lines 20-34: returns the updated limiter and
the time at which the caller resumes. -/
def wait_if_needed (rl : RateLimiter) (now : Int) : RateLimiter × Int :=
  let calls := rl.calls.filter (fun t => now - t < 60)
  if rl.calls_per_minute ≤ calls.length then
    let oldest := listMin calls
    let wait := 60 - (now - oldest)
    let ret := if 0 < wait then now + wait else now
    ({ rl with calls := calls ++ [now] }, ret)
  else
    ({ rl with calls := calls ++ [now] }, now)

/-- Run a sequence of sequential guarded calls against one limiter: each call
is requested at the given instant but cannot enter wait_if_needed before the
previous call returned. Produces the instant each call actually starts. -/
def run_limiter_calls (rl : RateLimiter) (lastReturn : Int) : List Int → List Int
  | [] => []
  | req :: rest =>
    let now := max req lastReturn
    let step := wait_if_needed rl now
    step.2 :: run_limiter_calls step.1 step.2 rest

/-- Start times of a call sequence against a fresh limiter with the given
limit, with the first request not before time 0. -/
def limiter_start_times (cpm : Nat) (requests : List Int) : List Int :=
  run_limiter_calls { calls_per_minute := cpm, calls := [] } 0 requests

/-- How many call start times fall inside the trailing 60-second window
ending at windowEnd. -/
def startsInWindow (starts : List Int) (windowEnd : Int) : Nat :=
  (starts.filter (fun s => windowEnd - 60 < s && s ≤ windowEnd)).length

/-! ## SocialMediaAccount (src/models/social_account.py)

Only scalar columns are carried; the credential encryption helpers and
to_dict serialization are excluded collaborators. DateTime columns become
Option Int (nullable) or Int. -/

/-- One connected social-media account row. -/
structure SocialMediaAccount where
  id : Nat
  user_id : Nat
  platform : String
  platform_user_id : Option String
  username : Option String
  display_name : Option String
  profile_image_url : Option String
  encrypted_credentials : String
  connection_status : String
  last_successful_post : Option Int
  last_authentication : Option Int
  authentication_expires_at : Option Int
  platform_specific_settings : String
  created_at : Int
  updated_at : Int
deriving Repr, DecidableEq

/-- SocialMediaAccount.is_authenticated, lines 72-78 of social_account.py:
status must be active and the expiry, when present (a datetime value is
always truthy in Python), must not lie in the past. -/
def SocialMediaAccount.is_authenticated (a : SocialMediaAccount) (now : Int) : Bool :=
  if a.connection_status != "active" then false
  else
    match a.authentication_expires_at with
    | some expiry => if expiry < now then false else true
    | none => true

/-! ## ContentPost and PostDistribution (src/models/content_post.py)

The free-form JSON text columns stay opaque strings; a JSON object default
is written with escaped braces. -/

/-- One authored post row. -/
structure ContentPost where
  id : Nat
  user_id : Nat
  title : String
  content : String
  content_type : String
  media_attachments : String
  hashtags : Option String
  mentions : Option String
  platform_specific_content : String
  status : String
  scheduled_for : Option Int
  created_at : Int
  updated_at : Int
  published_at : Option Int
deriving Repr, DecidableEq

/-- One per-(post, account) delivery record row, class PostDistribution,
lines 89-105 of content_post.py. -/
structure PostDistribution where
  id : Nat
  post_id : Nat
  social_media_account_id : Nat
  platform_post_id : Option String
  distribution_status : String
  scheduled_for : Option Int
  attempted_at : Option Int
  completed_at : Option Int
  error_message : Option String
  retry_count : Nat
  platform_response : Option String
  engagement_metrics : String
  created_at : Int
  updated_at : Int
deriving Repr, DecidableEq

/-- The tables touched by the content routes, plus the autoincrement counter
for new PostDistribution rows. -/
structure Db where
  posts : List ContentPost
  accounts : List SocialMediaAccount
  distributions : List PostDistribution
  next_distribution_id : Nat
deriving Repr, DecidableEq

/-! ## Content routes (src/routes/content.py)

Each route returns the outgoing Db paired with an Except: .error carries the
(HTTP status, message) of an error response and leaves the Db as it was
(db.session.rollback), .ok carries the payload of the 200 response. -/

/-- The account query of publish_post, lines 221-225: accounts of this user
among the selected ids whose connection status is active. -/
def active_targets (db : Db) (uid : Nat) (platform_ids : List Nat) : List SocialMediaAccount :=
  db.accounts.filter
    (fun a => a.user_id == uid && platform_ids.contains a.id && a.connection_status == "active")

/-- The PostDistribution rows publish_post inserts, lines 233-241: one per
account, in creation order, with ids continuing the autoincrement counter.
Column defaults from the model: retry_count 0, engagement_metrics the empty
JSON object, created_at and updated_at the current instant. -/
def mkDistributions (now : Int) (postId : Nat) (postSched : Option Int) :
    Nat → List SocialMediaAccount → List PostDistribution
  | _, [] => []
  | nextId, a :: rest =>
    { id := nextId
      post_id := postId
      social_media_account_id := a.id
      platform_post_id := none
      distribution_status := "pending"
      scheduled_for := some (postSched.getD now)
      attempted_at := none
      completed_at := none
      error_message := none
      retry_count := 0
      platform_response := none
      engagement_metrics := "\x7b\x7d"
      created_at := now
      updated_at := now } :: mkDistributions now postId postSched (nextId + 1) rest

/-- publish_post, lines 203-259 of content.py: look the post up by id and
owner, read the selected account ids, filter them to the active accounts of
the user, insert one pending PostDistribution per such account, move the post
to scheduled or publishing, and answer with the message and the inserted
rows. The actual publishing process is not triggered (the TODO at line 249).
A missing request body yields an empty id list and hence the 400 answer. -/
def publish_post (now : Int) (db : Db) (uid postId : Nat) (platform_ids : List Nat) :
    Db × Except (Nat × String) (String × List PostDistribution) :=
  match db.posts.find? (fun p => p.id == postId && p.user_id == uid) with
  | none => (db, .error (404, "Post not found"))
  | some post =>
    if platform_ids.isEmpty then
      (db, .error (400, "No platforms selected"))
    else
      let accounts := active_targets db uid platform_ids
      if accounts.isEmpty then
        (db, .error (400, "No active accounts found for selected platforms"))
      else
        let dists := mkDistributions now postId post.scheduled_for db.next_distribution_id accounts
        let post2 := { post with
          status := if post.scheduled_for.isSome then "scheduled" else "publishing"
          updated_at := now }
        let db2 := { db with
          posts := db.posts.map (fun p => if p.id == post.id then post2 else p)
          distributions := db.distributions ++ dists
          next_distribution_id := db.next_distribution_id + accounts.length }
        (db2, .ok ("Post scheduled for publishing to " ++ toString accounts.length ++ " platforms",
                   dists))

/-- The reset block of retry_distribution, lines 302-306: back to pending,
attempted_at and error_message cleared, retry_count incremented, updated_at
refreshed; every other column (completed_at included) untouched. -/
def retry_reset (now : Int) (d : PostDistribution) : PostDistribution :=
  { d with
    distribution_status := "pending"
    attempted_at := none
    error_message := none
    retry_count := d.retry_count + 1
    updated_at := now }

/-- retry_distribution, lines 282-319 of content.py: load the distribution
joined with its post to check ownership, reject any status outside failed and
error, otherwise reset the same row in place. -/
def retry_distribution (now : Int) (db : Db) (uid distId : Nat) :
    Db × Except (Nat × String) PostDistribution :=
  match db.distributions.find?
      (fun d => d.id == distId && db.posts.any (fun p => p.id == d.post_id && p.user_id == uid)) with
  | none => (db, .error (404, "Distribution not found"))
  | some d =>
    if !(["failed", "error"].contains d.distribution_status) then
      (db, .error (400, "Can only retry failed distributions"))
    else
      let d2 := retry_reset now d
      ({ db with
          distributions := db.distributions.map (fun x => if x.id == d.id then d2 else x) },
       .ok d2)

/-- delete_post, lines 180-201 of content.py: look the post up by id and
owner, delete its distributions, then the post itself. -/
def delete_post (db : Db) (uid postId : Nat) : Db × Except (Nat × String) String :=
  match db.posts.find? (fun p => p.id == postId && p.user_id == uid) with
  | none => (db, .error (404, "Post not found"))
  | some post =>
    ({ db with
        distributions := db.distributions.filter (fun d => !(d.post_id == postId))
        posts := db.posts.filter (fun p => !(p.id == post.id)) },
     .ok "Post deleted successfully")

/-- get_post_distributions, lines 261-280 of content.py: a read-only route;
it answers the distributions of the post and their count and leaves the Db
untouched. -/
def get_post_distributions (db : Db) (uid postId : Nat) :
    Except (Nat × String) (List PostDistribution × Nat) :=
  match db.posts.find? (fun p => p.id == postId && p.user_id == uid) with
  | none => .error (404, "Post not found")
  | some _post =>
    let ds := db.distributions.filter (fun d => d.post_id == postId)
    .ok (ds, ds.length)

/-! ## Helper lemmas about the inserted distribution rows -/

lemma mkDistributions_length (now : Int) (postId : Nat) (postSched : Option Int) :
    ∀ (nextId : Nat) (accts : List SocialMediaAccount),
      (mkDistributions now postId postSched nextId accts).length = accts.length := by
  intro nextId accts
  induction accts generalizing nextId with
  | nil => rfl
  | cons a rest ih => simp [mkDistributions, ih]

lemma mkDistributions_map_account (now : Int) (postId : Nat) (postSched : Option Int) :
    ∀ (nextId : Nat) (accts : List SocialMediaAccount),
      (mkDistributions now postId postSched nextId accts).map
          (fun d => d.social_media_account_id)
        = accts.map (fun a => a.id) := by
  intro nextId accts
  induction accts generalizing nextId with
  | nil => rfl
  | cons a rest ih => simp [mkDistributions, ih]

lemma mkDistributions_pending (now : Int) (postId : Nat) (postSched : Option Int) :
    ∀ (nextId : Nat) (accts : List SocialMediaAccount),
      ∀ d ∈ mkDistributions now postId postSched nextId accts,
        d.distribution_status = "pending" ∧ d.attempted_at = none ∧ d.completed_at = none := by
  intro nextId accts
  induction accts generalizing nextId with
  | nil => intro d hd; cases hd
  | cons a rest ih =>
    intro d hd
    rcases List.mem_cons.mp hd with h | h
    · subst h; exact ⟨rfl, rfl, rfl⟩
    · exact ih _ d h

/-! ## Concrete fixtures used by counterexamples and witnesses -/

/-- Fixture: an active account whose authentication never expires. -/
def acctA : SocialMediaAccount :=
  { id := 10, user_id := 1, platform := "facebook", platform_user_id := none,
    username := none, display_name := none, profile_image_url := none,
    encrypted_credentials := "c", connection_status := "active",
    last_successful_post := none, last_authentication := none,
    authentication_expires_at := none, platform_specific_settings := "\x7b\x7d",
    created_at := 0, updated_at := 0 }

/-- Fixture: an account whose connection is active but whose authentication
expired before instant 0, so is_authenticated is false at instant 0. -/
def acctB : SocialMediaAccount := { acctA with id := 11, authentication_expires_at := some (-5) }

/-- Fixture: an account whose connection status is not active. -/
def acctC : SocialMediaAccount := { acctA with id := 12, connection_status := "expired" }

/-- Fixture: an unscheduled draft post owned by user 1. -/
def post1 : ContentPost :=
  { id := 1, user_id := 1, title := "t", content := "hello", content_type := "text",
    media_attachments := "[]", hashtags := none, mentions := none,
    platform_specific_content := "\x7b\x7d", status := "draft", scheduled_for := none,
    created_at := 0, updated_at := 0, published_at := none }

/-- Fixture: the database holding post1 and the three accounts. -/
def exDb : Db :=
  { posts := [post1], accounts := [acctA, acctB, acctC], distributions := [],
    next_distribution_id := 1 }

/-- The first distribution row publish_post inserts on exDb at instant 0. -/
def exDist1 : PostDistribution :=
  { id := 1, post_id := 1, social_media_account_id := 10, platform_post_id := none,
    distribution_status := "pending", scheduled_for := some 0, attempted_at := none,
    completed_at := none, error_message := none, retry_count := 0,
    platform_response := none, engagement_metrics := "\x7b\x7d",
    created_at := 0, updated_at := 0 }

/-- The second distribution row publish_post inserts on exDb at instant 0 when
accounts 10 and 11 are both targeted. -/
def exDist2 : PostDistribution := { exDist1 with id := 2, social_media_account_id := 11 }

/-- Fixture: a failed distribution with two prior retries. -/
def dFailed : PostDistribution :=
  { exDist1 with
    id := 7
    attempted_at := some 3
    distribution_status := "failed"
    error_message := some "HTTP 500: boom"
    retry_count := 2
    updated_at := 3 }

/-- Fixture: a completed distribution. -/
def dCompleted : PostDistribution :=
  { exDist1 with
    id := 8
    distribution_status := "completed"
    attempted_at := some 3
    completed_at := some 4
    updated_at := 4 }

/-- Fixture: a database holding both distributions of post1. -/
def retryDb : Db :=
  { posts := [post1], accounts := [acctA], distributions := [dFailed, dCompleted],
    next_distribution_id := 9 }

/-- Fixture: a LinkedIn environment whose user-info endpoint answers HTTP 503. -/
def env503 : LinkedInEnv :=
  ⟨.response ⟨503, "busy", none, "", false⟩, .response ⟨201, "", none, "", false⟩⟩

/-- Fixture: a LinkedIn environment whose user-info endpoint answers HTTP 200
with the non-JSON body OK. -/
def envTextBody : LinkedInEnv :=
  ⟨.response ⟨200, "OK", none, "", false⟩, .response ⟨201, "", none, "", false⟩⟩

/-! ## Claim theorems -/

/-- C4 fails on the code as stated: a 503 response that advertises a JSON
content-type but carries an unparseable body does not get the HTTP
classification — response.json () raises inside the return expression and the
outer handler answers the transport-style Response, so the status code is
lost and the error carries the parser message instead of the status and raw
body. -/
theorem make_request_counterexample_unparseable_error_body :
    (make_request (.response
      ⟨503, "oops", none, "Expecting value: line 1 column 1 (char 0)", true⟩)).success
      = false ∧
    (make_request (.response
      ⟨503, "oops", none, "Expecting value: line 1 column 1 (char 0)", true⟩)).status_code
      = none ∧
    (make_request (.response
      ⟨503, "oops", none, "Expecting value: line 1 column 1 (char 0)", true⟩)).status_code
      ≠ some 503 ∧
    (make_request (.response
      ⟨503, "oops", none, "Expecting value: line 1 column 1 (char 0)", true⟩)).error
      = some "Request failed: Expecting value: line 1 column 1 (char 0)" ∧
    (make_request (.response
      ⟨503, "oops", none, "Expecting value: line 1 column 1 (char 0)", true⟩)).error
      ≠ some "HTTP 503: oops" :=
  ⟨rfl, rfl, by decide, rfl, by decide⟩

/-- C4 (amended): through the request funnel, a transport failure yields
success false, a non-empty error and no status code; a status of 400 or above
yields success false, the status and raw body inside the error, and the
status code set — unless the response advertises a JSON content-type with an
unparseable body, in which case the json call raises inside the return
expression and the outer handler yields the transport-style Response with
success false, a non-empty Request failed error and no status code; any other
response yields success true with data the parsed JSON body when parseable,
else the raw text. In particular HTTP 503 with a non-JSON content-type yields
success false, status code 503 and a non-empty error, and HTTP 200 with the
JSON body mapping id to 123 yields success true with exactly that object as
data. -/
theorem make_request_classification (msg : String) (r : HttpResp) :
    ((make_request (.transport_error msg)).success = false ∧
      (make_request (.transport_error msg)).error = some ("Request failed: " ++ msg) ∧
      (make_request (.transport_error msg)).error ≠ some "" ∧
      (make_request (.transport_error msg)).status_code = none) ∧
    (400 ≤ r.status_code → (r.content_type_json = false ∨ r.json_body.isSome = true) →
      (make_request (.response r)).success = false ∧
      (make_request (.response r)).error
        = some ("HTTP " ++ toString r.status_code ++ ": " ++ r.text) ∧
      (make_request (.response r)).status_code = some r.status_code) ∧
    (400 ≤ r.status_code → r.content_type_json = true → r.json_body = none →
      (make_request (.response r)).success = false ∧
      (make_request (.response r)).error
        = some ("Request failed: " ++ r.json_error_msg) ∧
      (make_request (.response r)).error ≠ some "" ∧
      (make_request (.response r)).status_code = none) ∧
    (r.status_code < 400 →
      (make_request (.response r)).success = true ∧
      (make_request (.response r)).data = some (r.json_body.getD (.str r.text)) ∧
      (make_request (.response r)).status_code = some r.status_code) ∧
    ((make_request (.response ⟨503, "Service Unavailable", none, "", false⟩)).success
        = false ∧
      (make_request (.response ⟨503, "Service Unavailable", none, "", false⟩)).status_code
        = some 503 ∧
      (make_request (.response ⟨503, "Service Unavailable", none, "", false⟩)).error
        = some "HTTP 503: Service Unavailable") ∧
    ((make_request (.response
        ⟨200, "body", some (.obj [("id", .str "123")]), "", true⟩)).success = true ∧
      (make_request (.response
        ⟨200, "body", some (.obj [("id", .str "123")]), "", true⟩)).data
        = some (.obj [("id", .str "123")])) := by
  have hne : ∀ s : String, ("Request failed: " ++ s) ≠ "" := by
    intro s h
    have h2 := congrArg String.length h
    rw [String.length_append] at h2
    have h3 : "Request failed: ".length = 16 := rfl
    have h4 : ("" : String).length = 0 := rfl
    rw [h3, h4] at h2
    omega
  refine ⟨⟨rfl, rfl, ?_, rfl⟩, ?_, ?_, ?_, ⟨rfl, rfl, rfl⟩, ⟨rfl, rfl⟩⟩
  · intro h
    exact hne msg (Option.some.inj h)
  · intro h hok
    have hcond : (r.content_type_json && r.json_body.isNone) = false := by
      rcases hok with hc | hj
      · rw [hc]
        rfl
      · cases hb : r.json_body with
        | none => rw [hb] at hj; simp at hj
        | some v => simp
    have heq : make_request (.response r)
        = { success := false
            data := none
            error := some ("HTTP " ++ toString r.status_code ++ ": " ++ r.text)
            status_code := some r.status_code
            platform_response :=
              if r.content_type_json then r.json_body.getD (.obj []) else .obj [] } := by
      simp [make_request, if_pos h, hcond]
    rw [heq]
    exact ⟨rfl, rfl, rfl⟩
  · intro h hc hj
    have hcond : (r.content_type_json && r.json_body.isNone) = true := by
      rw [hc, hj]
      rfl
    have heq : make_request (.response r)
        = { success := false
            data := none
            error := some ("Request failed: " ++ r.json_error_msg)
            status_code := none
            platform_response := .obj [] } := by
      simp [make_request, if_pos h, hcond]
    rw [heq]
    exact ⟨rfl, rfl, fun hh => hne r.json_error_msg (Option.some.inj hh), rfl⟩
  · intro h
    have hn : ¬ 400 ≤ r.status_code := by omega
    simp [make_request, if_neg hn]

/-- C4 witness: the funnel evaluated at a concrete 503 with a non-JSON
content-type and a concrete 200 with a parsed JSON body. -/
theorem make_request_classification_witness :
    (make_request (.response ⟨503, "x", none, "", false⟩)).success = false ∧
    (make_request (.response
      ⟨200, "y", some (.obj [("id", .str "123")]), "", true⟩)).success = true :=
  ⟨((make_request_classification "" ⟨503, "x", none, "", false⟩).2.1 (by decide)
      (Or.inl rfl)).1,
   ((make_request_classification ""
      ⟨200, "y", some (.obj [("id", .str "123")]), "", true⟩).2.2.2.1 (by decide)).1⟩

/-- C5 fails on the code: when the internal get_user_info sub-call of the
LinkedIn client succeeds with a payload that is not a dict (here an HTTP 200
whose body OK is not JSON), post_content raises AttributeError past the
PlatformClient boundary instead of returning a Response with success false. -/
theorem linkedin_post_content_attribute_error :
    linkedin_post_content envTextBody = (.exn "AttributeError", 0) ∧
    (linkedin_get_user_info envTextBody).success = true :=
  ⟨rfl, rfl⟩

/-- C6 fails on the code: with a limit of 1 call per minute and sequential
calls requested at instants 0, 1 and 60, wait_if_needed records the entry
instant 1 of the second call rather than its actual start instant 60, so the
third call is delayed only to instant 61: two calls start inside the trailing
60-second window ending at instant 61, exceeding the limit of 1. -/
theorem rate_limiter_window_bound_violated :
    limiter_start_times 1 [0, 1, 60] = [0, 60, 61] ∧
    startsInWindow (limiter_start_times 1 [0, 1, 60]) 61 = 2 ∧
    ¬ startsInWindow (limiter_start_times 1 [0, 1, 60]) 61 ≤ 1 :=
  ⟨rfl, rfl, by decide⟩

/-- C7: whenever the internal get_user_info sub-call produces a Response with
success false, the LinkedIn post_content returns exactly that Response and
issues zero requests to the post endpoint. -/
theorem linkedin_post_content_propagates_failure (env : LinkedInEnv)
    (h : (linkedin_get_user_info env).success = false) :
    linkedin_post_content env = (.ok (linkedin_get_user_info env), 0) := by
  simp only [linkedin_post_content, h]
  rfl

/-- C7 witness: a concrete environment whose user-info endpoint answers 503. -/
theorem linkedin_post_content_propagates_failure_witness :
    linkedin_post_content env503 = (.ok (linkedin_get_user_info env503), 0) :=
  linkedin_post_content_propagates_failure env503 rfl

/-- C8: create_client yields no client (not an error) for platform names
outside the registry, yields no client when construction raises, and any
constructed client comes from a lowercase registry hit whose construction
returned normally. -/
theorem create_client_spec (platform : String) (credentials : JsonVal) :
    (CLIENTS.contains (pyLower platform) = false →
      create_client platform credentials = none) ∧
    (∀ e, construct_client (pyLower platform) credentials = .exn e →
      create_client platform credentials = none) ∧
    (∀ c, create_client platform credentials = some c →
      CLIENTS.contains (pyLower platform) = true ∧
      construct_client (pyLower platform) credentials = .ok c) := by
  refine ⟨?_, ?_, ?_⟩
  · intro h
    unfold create_client
    rw [h]
    rfl
  · intro e he
    unfold create_client
    rw [he]
    split
    · rfl
    · rfl
  · intro c hc
    unfold create_client at hc
    by_cases hm : CLIENTS.contains (pyLower platform) = true
    · refine ⟨hm, ?_⟩
      rw [hm] at hc
      rcases hcon : construct_client (pyLower platform) credentials with v | e
      · rw [hcon] at hc
        simp at hc
        subst hc
        rfl
      · rw [hcon] at hc
        simp at hc
    · exfalso
      simp only [Bool.not_eq_true] at hm
      rw [hm] at hc
      simp at hc

/-- C8 witness: an unknown platform name and a construction failure (the
credential value is not a dict), each yielding no client. -/
theorem create_client_spec_witness :
    create_client "myspace" (.obj []) = none ∧
    create_client "FACEBOOK" (.str "x") = none :=
  ⟨(create_client_spec "myspace" (.obj [])).1 (by decide),
   (create_client_spec "FACEBOOK" (.str "x")).2.1 "AttributeError" rfl⟩

/-! ## Case lemmas for publish_post -/

lemma publish_post_of_find_none (now : Int) (db : Db) (uid postId : Nat)
    (platform_ids : List Nat)
    (hfind : db.posts.find? (fun p => p.id == postId && p.user_id == uid) = none) :
    publish_post now db uid postId platform_ids = (db, .error (404, "Post not found")) := by
  unfold publish_post
  simp only [hfind]

lemma publish_post_of_ids_empty (now : Int) (db : Db) (uid postId : Nat)
    (platform_ids : List Nat) (post : ContentPost)
    (hfind : db.posts.find? (fun p => p.id == postId && p.user_id == uid) = some post)
    (hids : platform_ids.isEmpty = true) :
    publish_post now db uid postId platform_ids = (db, .error (400, "No platforms selected")) := by
  unfold publish_post
  simp only [hfind, hids, if_true]

lemma publish_post_of_no_active (now : Int) (db : Db) (uid postId : Nat)
    (platform_ids : List Nat) (post : ContentPost)
    (hfind : db.posts.find? (fun p => p.id == postId && p.user_id == uid) = some post)
    (hids : platform_ids.isEmpty = false)
    (hacc : (active_targets db uid platform_ids).isEmpty = true) :
    publish_post now db uid postId platform_ids
      = (db, .error (400, "No active accounts found for selected platforms")) := by
  unfold publish_post
  simp only [hfind, hids, hacc, Bool.false_eq_true, if_false, if_true]

lemma publish_post_of_ok (now : Int) (db : Db) (uid postId : Nat)
    (platform_ids : List Nat) (post : ContentPost)
    (hfind : db.posts.find? (fun p => p.id == postId && p.user_id == uid) = some post)
    (hids : platform_ids.isEmpty = false)
    (hacc : (active_targets db uid platform_ids).isEmpty = false) :
    publish_post now db uid postId platform_ids
      = ({ db with
            posts := db.posts.map (fun p => if p.id == post.id then
              { post with
                status := if post.scheduled_for.isSome then "scheduled" else "publishing"
                updated_at := now } else p)
            distributions := db.distributions
              ++ mkDistributions now postId post.scheduled_for db.next_distribution_id
                  (active_targets db uid platform_ids)
            next_distribution_id := db.next_distribution_id
              + (active_targets db uid platform_ids).length },
         .ok ("Post scheduled for publishing to "
                ++ toString (active_targets db uid platform_ids).length ++ " platforms",
              mkDistributions now postId post.scheduled_for db.next_distribution_id
                (active_targets db uid platform_ids))) := by
  unfold publish_post
  simp only [hfind, hids, hacc, Bool.false_eq_true, if_false]

/-- C1 fails on the code: publish_post also creates a Distribution for a
targeted account that is active but no longer authenticated. On exDb at
instant 0 with targets 10, 11 and 12, the code creates two distributions (for
accounts 10 and 11) although only account 10 is active and authenticated;
account 11 gets a distribution despite is_authenticated being false for it. -/
theorem publish_post_counterexample_unauthenticated :
    (publish_post 0 exDb 1 1 [10, 11, 12]).1.distributions.length = 2 ∧
    (exDb.accounts.filter
      (fun a => a.user_id == 1 && [10, 11, 12].contains a.id && a.is_authenticated 0)).length
      = 1 ∧
    ((publish_post 0 exDb 1 1 [10, 11, 12]).1.distributions.map
      (fun d => d.social_media_account_id)) = [10, 11] ∧
    acctB.id = 11 ∧
    acctB.is_authenticated 0 = false :=
  ⟨rfl, rfl, rfl, rfl, rfl⟩

/-- C1 (amended): a successful publish_post creates exactly one pending
Distribution per targeted account of the user whose connection status is
active — authentication expiry is not consulted — and zero for every other
targeted account, appending them to the table; the message tells the caller
the count of accounts being published to (not a skipped count); and a failed
publish_post leaves the database unchanged, creating no Distribution. -/
theorem publish_post_creates_one_per_active_target (now : Int) (db : Db) (uid postId : Nat)
    (platform_ids : List Nat) :
    (∀ msg dists, (publish_post now db uid postId platform_ids).2 = .ok (msg, dists) →
      dists.length = (active_targets db uid platform_ids).length ∧
      dists.map (fun d => d.social_media_account_id)
        = (active_targets db uid platform_ids).map (fun a => a.id) ∧
      dists.all (fun d => d.distribution_status == "pending") = true ∧
      (publish_post now db uid postId platform_ids).1.distributions
        = db.distributions ++ dists ∧
      msg = "Post scheduled for publishing to "
        ++ toString (active_targets db uid platform_ids).length ++ " platforms") ∧
    (∀ e, (publish_post now db uid postId platform_ids).2 = .error e →
      (publish_post now db uid postId platform_ids).1 = db) := by
  constructor
  · intro msg dists h
    rcases hfind : db.posts.find? (fun p => p.id == postId && p.user_id == uid) with _ | post
    · rw [publish_post_of_find_none now db uid postId platform_ids hfind] at h
      simp at h
    · cases hids : platform_ids.isEmpty with
      | true =>
        rw [publish_post_of_ids_empty now db uid postId platform_ids post hfind hids] at h
        simp at h
      | false =>
        cases hacc : (active_targets db uid platform_ids).isEmpty with
        | true =>
          rw [publish_post_of_no_active now db uid postId platform_ids post hfind hids hacc] at h
          simp at h
        | false =>
          rw [publish_post_of_ok now db uid postId platform_ids post hfind hids hacc] at h
          simp only [Except.ok.injEq, Prod.mk.injEq] at h
          obtain ⟨hmsg, hdists⟩ := h
          subst hdists
          refine ⟨mkDistributions_length now postId post.scheduled_for _ _,
                  mkDistributions_map_account now postId post.scheduled_for _ _, ?_, ?_,
                  hmsg.symm⟩
          · refine List.all_eq_true.mpr ?_
            intro d hd
            have hp := (mkDistributions_pending now postId post.scheduled_for _ _ d hd).1
            simp [hp]
          · rw [publish_post_of_ok now db uid postId platform_ids post hfind hids hacc]
  · intro e h
    rcases hfind : db.posts.find? (fun p => p.id == postId && p.user_id == uid) with _ | post
    · rw [publish_post_of_find_none now db uid postId platform_ids hfind]
    · cases hids : platform_ids.isEmpty with
      | true =>
        rw [publish_post_of_ids_empty now db uid postId platform_ids post hfind hids]
      | false =>
        cases hacc : (active_targets db uid platform_ids).isEmpty with
        | true =>
          rw [publish_post_of_no_active now db uid postId platform_ids post hfind hids hacc]
        | false =>
          rw [publish_post_of_ok now db uid postId platform_ids post hfind hids hacc] at h
          simp at h

/-- C1 witness: the amended theorem applied to exDb, where accounts 10 and 11
are the active targets. -/
theorem publish_post_creates_one_per_active_target_witness :
    [exDist1, exDist2].length = (active_targets exDb 1 [10, 11, 12]).length ∧
    [exDist1, exDist2].map (fun d => d.social_media_account_id)
      = (active_targets exDb 1 [10, 11, 12]).map (fun a => a.id) ∧
    [exDist1, exDist2].all (fun d => d.distribution_status == "pending") = true ∧
    (publish_post 0 exDb 1 1 [10, 11, 12]).1.distributions
      = exDb.distributions ++ [exDist1, exDist2] ∧
    "Post scheduled for publishing to 2 platforms"
      = "Post scheduled for publishing to "
        ++ toString (active_targets exDb 1 [10, 11, 12]).length ++ " platforms" :=
  (publish_post_creates_one_per_active_target 0 exDb 1 1 [10, 11, 12]).1
    "Post scheduled for publishing to 2 platforms" [exDist1, exDist2] rfl

/-- C2 fails on the code: publish_post never dispatches; the distribution it
returns for the single active target of this request is still pending, not
completed or failed. -/
theorem publish_post_counterexample_still_pending :
    (publish_post 0 exDb 1 1 [10]).2
      = .ok ("Post scheduled for publishing to 1 platforms", [exDist1]) ∧
    exDist1.distribution_status = "pending" ∧
    exDist1.distribution_status ≠ "completed" ∧
    exDist1.distribution_status ≠ "failed" :=
  ⟨rfl, rfl, by decide, by decide⟩

/-- C2 (amended): publish_post creates the pending Distribution records but
attempts no dispatch within the call: every Distribution it returns is still
pending with attempted_at and completed_at unset, and the pre-existing
Distribution records are untouched (the new rows are appended after them). -/
theorem publish_post_no_dispatch (now : Int) (db : Db) (uid postId : Nat)
    (platform_ids : List Nat) (msg : String) (dists : List PostDistribution)
    (h : (publish_post now db uid postId platform_ids).2 = .ok (msg, dists)) :
    dists.all (fun d => d.distribution_status == "pending"
      && d.attempted_at == none && d.completed_at == none) = true ∧
    (publish_post now db uid postId platform_ids).1.distributions
      = db.distributions ++ dists := by
  rcases hfind : db.posts.find? (fun p => p.id == postId && p.user_id == uid) with _ | post
  · rw [publish_post_of_find_none now db uid postId platform_ids hfind] at h
    simp at h
  · cases hids : platform_ids.isEmpty with
    | true =>
      rw [publish_post_of_ids_empty now db uid postId platform_ids post hfind hids] at h
      simp at h
    | false =>
      cases hacc : (active_targets db uid platform_ids).isEmpty with
      | true =>
        rw [publish_post_of_no_active now db uid postId platform_ids post hfind hids hacc] at h
        simp at h
      | false =>
        rw [publish_post_of_ok now db uid postId platform_ids post hfind hids hacc] at h
        simp only [Except.ok.injEq, Prod.mk.injEq] at h
        obtain ⟨hmsg, hdists⟩ := h
        subst hdists
        constructor
        · refine List.all_eq_true.mpr ?_
          intro d hd
          have hp := mkDistributions_pending now postId post.scheduled_for _ _ d hd
          simp [hp.1, hp.2.1, hp.2.2]
        · rw [publish_post_of_ok now db uid postId platform_ids post hfind hids hacc]

/-- C2 witness: the amended theorem applied to exDb with targets 10, 11, 12. -/
theorem publish_post_no_dispatch_witness :
    [exDist1, exDist2].all (fun d => d.distribution_status == "pending"
      && d.attempted_at == none && d.completed_at == none) = true ∧
    (publish_post 0 exDb 1 1 [10, 11, 12]).1.distributions
      = exDb.distributions ++ [exDist1, exDist2] :=
  publish_post_no_dispatch 0 exDb 1 1 [10, 11, 12]
    "Post scheduled for publishing to 2 platforms" [exDist1, exDist2] rfl

/-- C3: retry is rejected with the taxonomy error for a distribution in
status completed, pending or publishing; from failed or error it always
succeeds, resetting the very same record (same id, post, account) to pending
with retry_count incremented by exactly one, attempted_at and error_message
cleared, completed_at and platform_post_id untouched, and the table keeps the
same number of rows (no new record is created). -/
theorem retry_distribution_spec (now : Int) (db : Db) (uid distId : Nat)
    (d : PostDistribution)
    (hfound : db.distributions.find?
        (fun x => x.id == distId
          && db.posts.any (fun p => p.id == x.post_id && p.user_id == uid))
      = some d) :
    (["completed", "pending", "publishing"].contains d.distribution_status = true →
      retry_distribution now db uid distId
        = (db, .error (400, "Can only retry failed distributions"))) ∧
    (["failed", "error"].contains d.distribution_status = true →
      retry_distribution now db uid distId
        = ({ db with distributions := db.distributions.map
                        (fun x => if x.id == d.id then retry_reset now d else x) },
           .ok (retry_reset now d)) ∧
      (retry_reset now d).distribution_status = "pending" ∧
      (retry_reset now d).retry_count = d.retry_count + 1 ∧
      (retry_reset now d).attempted_at = none ∧
      (retry_reset now d).error_message = none ∧
      (retry_reset now d).id = d.id ∧
      (retry_reset now d).post_id = d.post_id ∧
      (retry_reset now d).social_media_account_id = d.social_media_account_id ∧
      (retry_reset now d).completed_at = d.completed_at ∧
      (retry_reset now d).platform_post_id = d.platform_post_id) ∧
    (retry_distribution now db uid distId).1.distributions.length
      = db.distributions.length := by
  refine ⟨?_, ?_, ?_⟩
  · intro hst
    have hst2 : d.distribution_status = "completed" ∨ d.distribution_status = "pending"
        ∨ d.distribution_status = "publishing" := by simpa using hst
    have hnf : ¬ d.distribution_status = "failed" := by
      rcases hst2 with h | h | h <;> rw [h] <;> decide
    have hne : ¬ d.distribution_status = "error" := by
      rcases hst2 with h | h | h <;> rw [h] <;> decide
    unfold retry_distribution
    simp [hfound, hnf, hne]
  · intro hg
    refine ⟨?_, rfl, rfl, rfl, rfl, rfl, rfl, rfl, rfl, rfl⟩
    have hfe : d.distribution_status = "failed" ∨ d.distribution_status = "error" := by
      simpa using hg
    unfold retry_distribution
    rcases hfe with h | h <;> simp [hfound, h]
  · unfold retry_distribution
    cases hg : (["failed", "error"].contains d.distribution_status) with
    | false =>
      simp at hg
      simp [hfound, hg.1, hg.2]
    | true =>
      have hfe : d.distribution_status = "failed" ∨ d.distribution_status = "error" := by
        simpa using hg
      rcases hfe with h | h <;> simp [hfound, h]

/-- C3 witness: on retryDb, retrying the completed distribution 8 is rejected
and retrying the failed distribution 7 resets it in place, incrementing
retry_count from 2 to 3. -/
theorem retry_distribution_spec_witness :
    retry_distribution 5 retryDb 1 8
      = (retryDb, .error (400, "Can only retry failed distributions")) ∧
    retry_distribution 5 retryDb 1 7
      = ({ retryDb with distributions := retryDb.distributions.map
                            (fun x => if x.id == dFailed.id then retry_reset 5 dFailed else x) },
         .ok (retry_reset 5 dFailed)) ∧
    (retry_reset 5 dFailed).retry_count = dFailed.retry_count + 1 ∧
    (retry_reset 5 dFailed).distribution_status = "pending" ∧
    (retry_reset 5 dFailed).attempted_at = none := by
  obtain ⟨heq, hstat, hcount, hatt, -, -, -, -, -, -⟩ :=
    (retry_distribution_spec 5 retryDb 1 7 dFailed rfl).2.1 rfl
  exact ⟨(retry_distribution_spec 5 retryDb 1 8 dCompleted rfl).1 rfl,
         heq, hcount, hstat, hatt⟩

/-- Invariant of C9 for one distribution row: completed_at is set exactly
when the status is completed. -/
def completed_at_inv (d : PostDistribution) : Prop :=
  d.completed_at.isSome = true ↔ d.distribution_status = "completed"

instance (d : PostDistribution) : Decidable (completed_at_inv d) := by
  unfold completed_at_inv
  infer_instance

/-- Invariant of C9 for the whole table. -/
def db_inv (db : Db) : Prop := ∀ d ∈ db.distributions, completed_at_inv d

instance (db : Db) : Decidable (db_inv db) := by
  unfold db_inv
  infer_instance

/-- C9: every mutating content route preserves the invariant that
completed_at is set exactly on completed distributions — publish_post only
inserts pending rows with completed_at unset, retry_distribution keeps
completed_at while moving a failed or error row (whose completed_at is unset
by the invariant) to pending, and delete_post only removes rows. The
remaining exposed operation, get_post_distributions, is read-only. -/
theorem routes_preserve_completed_at_inv (now : Int) (db : Db)
    (uid postId distId : Nat) (platform_ids : List Nat) (hinv : db_inv db) :
    db_inv (publish_post now db uid postId platform_ids).1 ∧
    db_inv (retry_distribution now db uid distId).1 ∧
    db_inv (delete_post db uid postId).1 := by
  refine ⟨?_, ?_, ?_⟩
  · rcases hfind : db.posts.find? (fun p => p.id == postId && p.user_id == uid) with _ | post
    · rw [publish_post_of_find_none now db uid postId platform_ids hfind]
      exact hinv
    · cases hids : platform_ids.isEmpty with
      | true =>
        rw [publish_post_of_ids_empty now db uid postId platform_ids post hfind hids]
        exact hinv
      | false =>
        cases hacc : (active_targets db uid platform_ids).isEmpty with
        | true =>
          rw [publish_post_of_no_active now db uid postId platform_ids post hfind hids hacc]
          exact hinv
        | false =>
          rw [publish_post_of_ok now db uid postId platform_ids post hfind hids hacc]
          unfold db_inv
          intro x hx
          rcases List.mem_append.mp hx with hx | hx
          · exact hinv x hx
          · have hp := mkDistributions_pending now postId post.scheduled_for _ _ x hx
            unfold completed_at_inv
            rw [hp.1, hp.2.2]
            simp
  · unfold retry_distribution
    rcases hfound : db.distributions.find?
        (fun x => x.id == distId
          && db.posts.any (fun p => p.id == x.post_id && p.user_id == uid)) with _ | d
    · simp only [hfound]
      exact hinv
    · simp only [hfound]
      cases hg : (["failed", "error"].contains d.distribution_status) with
      | false =>
        simp only [hg, Bool.not_false, if_true]
        exact hinv
      | true =>
        simp only [hg, Bool.not_true, Bool.false_eq_true, if_false]
        unfold db_inv
        intro x hx
        rcases List.mem_map.mp hx with ⟨y, hy, hxy⟩
        by_cases hyd : (y.id == d.id) = true
        · rw [if_pos hyd] at hxy
          subst hxy
          have hmem := List.mem_of_find?_eq_some hfound
          have hdinv := hinv d hmem
          have hstat : d.distribution_status = "failed" ∨ d.distribution_status = "error" := by
            simpa using hg
          have hncomp : d.distribution_status ≠ "completed" := by
            rcases hstat with h | h <;> rw [h] <;> decide
          have hnone : d.completed_at.isSome = false := by
            cases hcomp : d.completed_at.isSome
            · rfl
            · exact absurd (hdinv.mp hcomp) hncomp
          show d.completed_at.isSome = true ↔ ("pending" : String) = "completed"
          rw [hnone]
          exact iff_of_false (by simp) (by decide)
        · rw [if_neg hyd] at hxy
          subst hxy
          exact hinv y hy
  · unfold delete_post
    rcases hfind : db.posts.find? (fun p => p.id == postId && p.user_id == uid) with _ | post
    · simp only [hfind]
      exact hinv
    · simp only [hfind]
      unfold db_inv
      intro x hx
      exact hinv x (List.mem_of_mem_filter hx)

/-- C9 witness: the three mutating routes applied to retryDb, whose two rows
satisfy the invariant. -/
theorem routes_preserve_completed_at_inv_witness :
    db_inv (publish_post 5 retryDb 1 1 [10]).1 ∧
    db_inv (retry_distribution 5 retryDb 1 7).1 ∧
    db_inv (delete_post retryDb 1 1).1 :=
  routes_preserve_completed_at_inv 5 retryDb 1 1 7 [10] (by decide)

/-- C10: a successful publish_post also mutates the owning post and nothing
else of it: the post status becomes scheduled when the post carries a
scheduled_for instant and publishing otherwise, updated_at is refreshed to
the current instant, and every other post column — and every other post row,
and the accounts table — is left unchanged. -/
theorem publish_post_updates_only_post_status (now : Int) (db : Db) (uid postId : Nat)
    (platform_ids : List Nat) (msg : String) (dists : List PostDistribution)
    (h : (publish_post now db uid postId platform_ids).2 = .ok (msg, dists)) :
    ∃ post post2,
      db.posts.find? (fun p => p.id == postId && p.user_id == uid) = some post ∧
      (publish_post now db uid postId platform_ids).1.posts
        = db.posts.map (fun p => if p.id == post.id then post2 else p) ∧
      (publish_post now db uid postId platform_ids).1.accounts = db.accounts ∧
      post2.status = (if post.scheduled_for.isSome then "scheduled" else "publishing") ∧
      post2.updated_at = now ∧
      post2.id = post.id ∧ post2.user_id = post.user_id ∧ post2.title = post.title ∧
      post2.content = post.content ∧ post2.content_type = post.content_type ∧
      post2.media_attachments = post.media_attachments ∧ post2.hashtags = post.hashtags ∧
      post2.mentions = post.mentions ∧
      post2.platform_specific_content = post.platform_specific_content ∧
      post2.scheduled_for = post.scheduled_for ∧ post2.created_at = post.created_at ∧
      post2.published_at = post.published_at := by
  rcases hfind : db.posts.find? (fun p => p.id == postId && p.user_id == uid) with _ | post
  · rw [publish_post_of_find_none now db uid postId platform_ids hfind] at h
    simp at h
  · cases hids : platform_ids.isEmpty with
    | true =>
      rw [publish_post_of_ids_empty now db uid postId platform_ids post hfind hids] at h
      simp at h
    | false =>
      cases hacc : (active_targets db uid platform_ids).isEmpty with
      | true =>
        rw [publish_post_of_no_active now db uid postId platform_ids post hfind hids hacc] at h
        simp at h
      | false =>
        refine ⟨post,
          { post with
            status := if post.scheduled_for.isSome then "scheduled" else "publishing"
            updated_at := now },
          hfind, ?_, ?_, rfl, rfl, rfl, rfl, rfl, rfl, rfl, rfl, rfl, rfl, rfl, rfl, rfl, rfl⟩
        · rw [publish_post_of_ok now db uid postId platform_ids post hfind hids hacc]
        · rw [publish_post_of_ok now db uid postId platform_ids post hfind hids hacc]

/-- C10 witness: on exDb (whose post has no schedule) a successful publish
moves post 1 to publishing, refreshes its updated_at and changes nothing
else. -/
theorem publish_post_updates_only_post_status_witness :
    ∃ post post2,
      exDb.posts.find? (fun p => p.id == 1 && p.user_id == 1) = some post ∧
      (publish_post 3 exDb 1 1 [10, 11, 12]).1.posts
        = exDb.posts.map (fun p => if p.id == post.id then post2 else p) ∧
      (publish_post 3 exDb 1 1 [10, 11, 12]).1.accounts = exDb.accounts ∧
      post2.status = (if post.scheduled_for.isSome then "scheduled" else "publishing") ∧
      post2.updated_at = 3 ∧
      post2.id = post.id ∧ post2.user_id = post.user_id ∧ post2.title = post.title ∧
      post2.content = post.content ∧ post2.content_type = post.content_type ∧
      post2.media_attachments = post.media_attachments ∧ post2.hashtags = post.hashtags ∧
      post2.mentions = post.mentions ∧
      post2.platform_specific_content = post.platform_specific_content ∧
      post2.scheduled_for = post.scheduled_for ∧ post2.created_at = post.created_at ∧
      post2.published_at = post.published_at :=
  publish_post_updates_only_post_status 3 exDb 1 1 [10, 11, 12]
    "Post scheduled for publishing to 2 platforms"
    (mkDistributions 3 1 post1.scheduled_for exDb.next_distribution_id
      (active_targets exDb 1 [10, 11, 12])) rfl

end SNM
